import Mathlib

/-!
Verification of the TikTok-Api scraper toolkit (`src/Scraper/`).

The development shallowly embeds the three Python source files:
* `extract_ms_token.py` — the cookie Locator: candidate enumeration, probing
  (`has_tiktok_cookies`), ranking, per-file extraction and the CLI driver;
* `tiktok_scraper.py` — the Dispatcher: the bounded fetch loops, CSV layout
  and the CLI entry point;
* `tiktok_scraper_mock.py` — the mock CLI entry point.

SQLite databases are modelled as lists of rows; SQL `LIKE '%pat'` and
`LIKE '%pat%'` become executable suffix/substring tests on character lists;
Python exceptions become explicit `Option`/variant values; the remote
paginated stream is an opaque function from a requested count to the list of
items it actually yields.
-/

namespace TikTokScraper

/-! ### Python / SQL string primitives -/

/-- Model of Python `str.strip()`: drop whitespace from both ends.
Implemented on the character list so that it evaluates by `decide`/`rfl`. -/
def pyStrip (s : String) : String :=
  String.mk (((s.data.dropWhile Char.isWhitespace).reverse.dropWhile
    Char.isWhitespace).reverse)

/-- Model of Python slicing `s[:n]`: the first `n` code points. -/
def pyTake (n : Nat) (s : String) : String :=
  String.mk (s.data.take n)

/-- `isPrefixList p l` holds when `p` is an initial segment of `l`. -/
def isPrefixList : List Char → List Char → Bool
  | [], _ => true
  | _ :: _, [] => false
  | a :: as, b :: bs => a == b && isPrefixList as bs

/-- `isSubList p l` holds when `p` occurs contiguously somewhere inside `l`. -/
def isSubList (p : List Char) : List Char → Bool
  | [] => p.isEmpty
  | c :: rest => isPrefixList p (c :: rest) || isSubList p rest

/-- `isSuffixList p l` holds when `p` is a final segment of `l`. -/
def isSuffixList (p l : List Char) : Bool :=
  isPrefixList p.reverse l.reverse

/-- Model of Python `s.startswith(pre)`. -/
def pyStartsWith (pre s : String) : Bool :=
  isPrefixList pre.data s.data

/-- SQL `col LIKE '%pat'`: the column value ends with `pat`. -/
def likeSuffix (pat s : String) : Bool :=
  isSuffixList pat.data s.data

/-- SQL `col LIKE '%pat%'`: the column value contains `pat`. -/
def likeAnywhere (pat s : String) : Bool :=
  isSubList pat.data s.data

/-! ### Cookie database model

A Firefox `cookies.sqlite` row (table `moz_cookies`).  Old Firefox schemas
lack the `baseDomain` column; that is recorded per-database, and a
`baseDomain` query on such a database raises `OperationalError`. -/

structure FfRow where
  name : String
  host : String
  baseDomain : String
  value : String
deriving DecidableEq, Repr

/-- A Firefox cookie database: either unreadable/malformed (every query
raises) or a readable table, with `hasBaseDomain` recording whether the
modern `baseDomain` column exists. -/
inductive FfDB where
  | malformed
  | ok (hasBaseDomain : Bool) (rows : List FfRow)
deriving DecidableEq, Repr

/-- A Chrome/Edge cookie value as returned by sqlite: either a BLOB
(`blob d` carries the result of `bytes.decode('utf-8')`: `none` when the
bytes are not valid UTF-8; the empty byte string decodes to `some ""` and is
the only falsy blob) or a TEXT value. -/
inductive CookieValue where
  | blob (decoded : Option String)
  | text (s : String)
deriving DecidableEq, Repr

/-- A Chrome/Edge `Cookies` row (table `cookies`). -/
structure ChRow where
  name : String
  host_key : String
  value : CookieValue
deriving DecidableEq, Repr

/-- A Chrome/Edge cookie database. -/
inductive ChDB where
  | malformed
  | ok (rows : List ChRow)
deriving DecidableEq, Repr

/-! ### `has_tiktok_cookies` (extract_ms_token.py lines 23–70) -/

/-- `name='msToken' OR name='ms_token'`. -/
def nameIsMsToken (n : String) : Bool :=
  n == "msToken" || n == "ms_token"

/-- `baseDomain='tiktok.com' OR baseDomain='.tiktok.com'`. -/
def bdIsTiktok (bd : String) : Bool :=
  bd == "tiktok.com" || bd == ".tiktok.com"

/-- `has_tiktok_cookies(cookiefile, is_firefox=True)`: the modern-schema
queries filter on `baseDomain`; on an old schema (`OperationalError`) the
host-based fallback queries run; `COUNT(*) > 0` is `List.any`; any
exception (malformed file) yields `False`. -/
def has_tiktok_cookies_firefox : FfDB → Bool
  | .malformed => false
  | .ok hasBD rows =>
    if hasBD then
      rows.any (fun r => nameIsMsToken r.name && bdIsTiktok r.baseDomain) ||
      rows.any (fun r => bdIsTiktok r.baseDomain)
    else
      rows.any (fun r => nameIsMsToken r.name && likeSuffix "tiktok.com" r.host) ||
      rows.any (fun r => likeSuffix "tiktok.com" r.host)

/-- `has_tiktok_cookies(cookiefile, is_firefox=False)`: the Chrome/Edge
schema path of the same function. -/
def has_tiktok_cookies_chrome : ChDB → Bool
  | .malformed => false
  | .ok rows =>
    rows.any (fun r => nameIsMsToken r.name && likeSuffix "tiktok.com" r.host_key) ||
    rows.any (fun r => likeSuffix "tiktok.com" r.host_key)

/-! ### The prioritized/others ranking step (lines 104–113, 152–162, 201–211) -/

/-- One iteration of the Firefox ranking loop: append to `prioritized`
when the probe succeeds, else to `others`. -/
def ffRankStep (probe : α → Bool) (acc : List α × List α) (c : α) :
    List α × List α :=
  if probe c then (acc.1 ++ [c], acc.2) else (acc.1, acc.2 ++ [c])

/-- The Firefox ranking loop: `for cookiefile in all_cookiefiles:`. -/
def prioritizeLoop (probe : α → Bool) (l : List α) : List α × List α :=
  l.foldl (ffRankStep probe) ([], [])

/-- `return prioritized + others` for the Firefox ranking step. -/
def rankFirefox (probe : α → Bool) (l : List α) : List α :=
  (prioritizeLoop probe l).1 ++ (prioritizeLoop probe l).2

/-- One iteration of the Chrome/Edge ranking loop: `if exists(c) and
probe(c)` → prioritized, `elif exists(c)` → others, else the candidate is
dropped. -/
def chRankStep (ex probe : α → Bool) (acc : List α × List α) (c : α) :
    List α × List α :=
  if ex c && probe c then (acc.1 ++ [c], acc.2)
  else if ex c then (acc.1, acc.2 ++ [c])
  else acc

/-- The Chrome/Edge ranking loop. -/
def prioritizeLoopEx (ex probe : α → Bool) (l : List α) : List α × List α :=
  l.foldl (chRankStep ex probe) ([], [])

/-- `return prioritized + others` for the Chrome/Edge ranking step. -/
def rankChromeEdge (ex probe : α → Bool) (l : List α) : List α :=
  (prioritizeLoopEx ex probe l).1 ++ (prioritizeLoopEx ex probe l).2

/-! ### Candidate lists at the database level (lines 73–211)

For the claims about probing/extraction the file-system paths are irrelevant;
a candidate is its database content, and in a fixed file-system snapshot
every enumerated candidate exists. -/

/-- `get_firefox_cookie_files`: glob results (here: the databases present),
early `[]` when nothing was found, then the ranking step. -/
def get_firefox_cookie_files (found : List FfDB) : List FfDB :=
  if found.isEmpty then []
  else rankFirefox has_tiktok_cookies_firefox found

/-- `get_chrome_cookie_files` / `get_edge_cookie_files` after enumeration:
the ranking step with the `exists` re-check (always true for a database
present in the snapshot). -/
def get_chrome_edge_cookie_files (found : List ChDB) : List ChDB :=
  rankChromeEdge (fun _ => true) has_tiktok_cookies_chrome found

/-! ### `extract_ms_token_from_firefox` (lines 214–268) -/

/-- Query 1 for `cookie_name`: `name=cn AND (baseDomain='tiktok.com' OR
baseDomain='.tiktok.com')`. -/
def ffQ1 (cn : String) (r : FfRow) : Bool :=
  r.name == cn && bdIsTiktok r.baseDomain

/-- Query 2: `name=cn AND (host='tiktok.com' OR host='.tiktok.com' OR
host='www.tiktok.com' OR host LIKE '%.tiktok.com')`. -/
def ffQ2 (cn : String) (r : FfRow) : Bool :=
  r.name == cn &&
    (r.host == "tiktok.com" || r.host == ".tiktok.com" ||
     r.host == "www.tiktok.com" || likeSuffix ".tiktok.com" r.host)

/-- Query 3: `name=cn AND host LIKE '%tiktok%'`. -/
def ffQ3 (cn : String) (r : FfRow) : Bool :=
  r.name == cn && likeAnywhere "tiktok" r.host

/-- One Firefox query attempt: `fetchone` is `List.find?`; the fetched value
is returned (stripped) when `result[0]` is truthy and the strip is
non-empty, otherwise the loop continues to the next query. -/
def ffTryQuery (rows : List FfRow) (q : FfRow → Bool) : Option String :=
  match rows.find? q with
  | some r =>
    if r.value ≠ "" && pyStrip r.value ≠ "" then some (pyStrip r.value) else none
  | none => none

/-- The inner `for query in queries` loop for one `cookie_name`; query 1
raises `OperationalError` (and is skipped) when the schema lacks
`baseDomain`. -/
def ffTryName (hasBD : Bool) (rows : List FfRow) (cn : String) : Option String :=
  ((if hasBD then ffTryQuery rows (ffQ1 cn) else none) <|>
    ffTryQuery rows (ffQ2 cn)) <|> ffTryQuery rows (ffQ3 cn)

/-- `extract_ms_token_from_firefox`: `for cookie_name in ['msToken',
'ms_token']` over the query chain; any exception on a malformed database is
caught and `None` is returned. -/
def extract_ms_token_from_firefox : FfDB → Option String
  | .malformed => none
  | .ok hasBD rows =>
    ffTryName hasBD rows "msToken" <|> ffTryName hasBD rows "ms_token"

/-! ### `extract_ms_token_from_chrome_edge` (lines 271–336) -/

/-- Query 1: `name=cn AND host_key LIKE '%tiktok.com'`. -/
def chQ1 (cn : String) (r : ChRow) : Bool :=
  r.name == cn && likeSuffix "tiktok.com" r.host_key

/-- Query 2: `name=cn AND host_key LIKE '%.tiktok.com'`. -/
def chQ2 (cn : String) (r : ChRow) : Bool :=
  r.name == cn && likeSuffix ".tiktok.com" r.host_key

/-- Query 3: `name=cn AND host_key='www.tiktok.com'`. -/
def chQ3 (cn : String) (r : ChRow) : Bool :=
  r.name == cn && r.host_key == "www.tiktok.com"

/-- Query 4: `name=cn AND host_key LIKE '%tiktok%'`. -/
def chQ4 (cn : String) (r : ChRow) : Bool :=
  r.name == cn && likeAnywhere "tiktok" r.host_key

/-- Outcome of handling one fetched Chrome/Edge value (lines 294–323):
either the token is returned, or the value is skipped after printing the
"appears encrypted" warning (`skipWarn`, the BLOB branch), or it is skipped
with no message at all (`skipSilent`, the falsy-value and TEXT branches). -/
inductive StepResult where
  | ret (t : String)
  | skipWarn
  | skipSilent
deriving DecidableEq, Repr

/-- Handling of one fetched Chrome/Edge cookie value.  A falsy value
(empty text, empty bytes) fails `if result and result[0]` and is passed
over silently.  A BLOB is decoded as UTF-8: a decodable value that is
non-blank and does not start with `'v1'` is returned stripped, anything
else in the BLOB branch falls through to the encrypted-cookie warning.  A
TEXT value that is non-blank and does not start with `'v1'` is returned
stripped; otherwise the TEXT branch just falls through to the next query
with no diagnostic. -/
def chromeValueStep : CookieValue → StepResult
  | .text s =>
    if s == "" then .skipSilent
    else if pyStrip s ≠ "" && !pyStartsWith "v1" s then .ret (pyStrip s)
    else .skipSilent
  | .blob d =>
    if d == some "" then .skipSilent
    else
      match d with
      | some dec =>
        if dec ≠ "" && pyStrip dec ≠ "" && !pyStartsWith "v1" dec then
          .ret (pyStrip dec)
        else .skipWarn
      | none => .skipWarn

/-- One Chrome/Edge query attempt: `fetchone`, then the value handling. -/
def chTryQuery (rows : List ChRow) (q : ChRow → Bool) : Option String :=
  match rows.find? q with
  | some r =>
    match chromeValueStep r.value with
    | .ret t => some t
    | _ => none
  | none => none

/-- The four-query chain for one `cookie_name`. -/
def chTryName (rows : List ChRow) (cn : String) : Option String :=
  ((chTryQuery rows (chQ1 cn) <|> chTryQuery rows (chQ2 cn)) <|>
    chTryQuery rows (chQ3 cn)) <|> chTryQuery rows (chQ4 cn)

/-- `extract_ms_token_from_chrome_edge`: both cookie names over the query
chain; any exception on a malformed database is caught (warning printed)
and `None` is returned. -/
def extract_ms_token_from_chrome_edge : ChDB → Option String
  | .malformed => none
  | .ok rows => chTryName rows "msToken" <|> chTryName rows "ms_token"

/-! ### `extract_ms_token` driver (lines 339–412) and the Locator CLI -/

/-- The three browser families, in the default search order. -/
inductive Browser where
  | firefox
  | chrome
  | edge
deriving DecidableEq, Repr

/-- A snapshot of the browser profile databases present on the machine. -/
structure Env where
  firefoxDBs : List FfDB
  chromeDBs : List ChDB
  edgeDBs : List ChDB
deriving Repr

/-- `browsers_to_try`: the preferred browser alone, or the default
Firefox → Chrome → Edge order. -/
def browsers_to_try : Option Browser → List Browser
  | some b => [b]
  | none => [.firefox, .chrome, .edge]

/-- `for cookiefile in cookie_files: ... if ms_token: return ms_token` —
the first successful extraction in the list, else `none`. -/
def searchList (extract : δ → Option String) : List δ → Option String
  | [] => none
  | f :: rest =>
    match extract f with
    | some t => some t
    | none => searchList extract rest

/-- One iteration of the `for browser in browsers_to_try` loop: enumerate
and rank that family's candidates, then try each in order (an empty
candidate list just moves on). -/
def tryBrowser (env : Env) : Browser → Option String
  | .firefox =>
    searchList extract_ms_token_from_firefox (get_firefox_cookie_files env.firefoxDBs)
  | .chrome =>
    searchList extract_ms_token_from_chrome_edge (get_chrome_edge_cookie_files env.chromeDBs)
  | .edge =>
    searchList extract_ms_token_from_chrome_edge (get_chrome_edge_cookie_files env.edgeDBs)

/-- `extract_ms_token(preferred_browser)`: the browser loop, returning on
the first token found, `None` when every family is exhausted. -/
def extract_ms_token (env : Env) (preferred : Option Browser) : Option String :=
  searchList (tryBrowser env) (browsers_to_try preferred)

/-- How one run of the Locator CLI `__main__` block (lines 446–468) ends:
the extraction completed with its result, or a `KeyboardInterrupt`, or an
uncaught exception reached the top-level handler. -/
inductive LocatorRun where
  | completed (msToken : Option String)
  | interrupted
  | raised
deriving DecidableEq, Repr

/-- Exit status of the Locator CLI: a found token prints/saves and exits 0
(`save_ms_token` catches its own errors, so saving cannot change the
status); no token exits 1; interrupt and top-level exception exit 1. -/
def locator_exit_code : LocatorRun → Int
  | .completed (some _) => 0
  | .completed none => 1
  | .interrupted => 1
  | .raised => 1

/-! ### Chrome/Edge profile glob enumeration (lines 133–150, 182–199)

Here the file-system level matters: a base directory containing a
`Default/Cookies` file or not, and profile sub-directories (each assumed to
contain a `Cookies` file) whose names are matched against the glob patterns
`Profile */Cookies` and `Profile [0-9]*/Cookies`. -/

/-- Glob `Profile *` over a directory name: the literal prefix `"Profile "`
followed by any (possibly empty) run of characters. -/
def matchProfileStar (dir : String) : Bool :=
  isPrefixList "Profile ".data dir.data

/-- Glob `Profile [0-9]*` over a directory name: the literal prefix
`"Profile "`, then one digit, then any run of characters. -/
def matchProfileDigit (dir : String) : Bool :=
  match dir.data.drop 8 with
  | [] => false
  | c :: _ => isPrefixList "Profile ".data dir.data && c.isDigit

/-- `get_chrome_cookie_files` / `get_edge_cookie_files` path enumeration for
one existing base directory: the `Default/Cookies` check, then the
`Profile */Cookies` glob, then the `Profile [0-9]*/Cookies` glob, each
extending the same list. -/
def enumerateChromeCandidates (defaultCookiesExists : Bool)
    (profileDirs : List String) : List String :=
  (if defaultCookiesExists then ["Default/Cookies"] else []) ++
  (profileDirs.filter matchProfileStar).map (fun d => d ++ "/Cookies") ++
  (profileDirs.filter matchProfileDigit).map (fun d => d ++ "/Cookies")

/-! ### Dispatcher fetch loops (tiktok_scraper.py)

Limits are Python ints or `None`; Python truthiness makes `0` behave like
`None` in `limit if limit else d` and in `if limit and count >= limit`.
The remote paginated stream is an opaque function from the requested count
to the items it actually yields. -/

/-- Python truthiness of the optional `limit` argument. -/
def limitTruthy : Option Int → Bool
  | none => false
  | some n => n != 0

/-- `count=limit if limit else 1000` in `scrape_user` (line 66). -/
def user_videos_request_count (limit : Option Int) : Int :=
  if limitTruthy limit then limit.getD 0 else 1000

/-- `count=limit if limit else 100` in `scrape_trending` (line 151). -/
def trending_request_count (limit : Option Int) : Int :=
  if limitTruthy limit then limit.getD 0 else 100

/-- `count=limit if limit else 100` in `scrape_hashtag` (line 231). -/
def hashtag_request_count (limit : Option Int) : Int :=
  if limitTruthy limit then limit.getD 0 else 100

/-- `args.comment_limit if args.comments else None` in `main` (line 409),
with the argparse default `--comment-limit 30` (line 391). -/
def video_comment_limit (commentsFlag : Bool) (commentLimitArg : Option Int) :
    Option Int :=
  if commentsFlag then some (commentLimitArg.getD 30) else none

/-- The video-collecting loop body (lines 66–75, 151–160, 231–240):
append the item, increment the count, and `if limit and video_count >=
limit: break`.  `cnt` is the count before the current item. -/
def videosLoop (limit : Option Int) : List α → Int → List α
  | [], _ => []
  | v :: rest, cnt =>
    v :: (if limitTruthy limit && decide (limit.getD 0 ≤ cnt + 1) then []
          else videosLoop limit rest (cnt + 1))

/-- `scrape_user`: request the stream with the computed count, then run the
collecting loop from count 0. -/
def scrape_user_videos (limit : Option Int) (remote : Int → List α) : List α :=
  videosLoop limit (remote (user_videos_request_count limit)) 0

/-- `scrape_trending`: same loop, default count 100. -/
def scrape_trending_videos (limit : Option Int) (remote : Int → List α) : List α :=
  videosLoop limit (remote (trending_request_count limit)) 0

/-- `scrape_hashtag`: same loop, default count 100. -/
def scrape_hashtag_videos (limit : Option Int) (remote : Int → List α) : List α :=
  videosLoop limit (remote (hashtag_request_count limit)) 0

/-- The comment-collecting loop (lines 322–326): append and count — there
is no break; the loop consumes whatever the stream yields. -/
def commentsLoop : List α → List α
  | [] => []
  | c :: rest => c :: commentsLoop rest

/-- `scrape_video` comment extraction: the stream is requested with
`count=comment_limit` and then consumed in full. -/
def scrape_video_comments (commentLimit : Int) (remote : Int → List α) : List α :=
  commentsLoop (remote commentLimit)

/-! ### CSV output (lines 92–114, 176–190, 257–271, 345–367)

A CSV file is a list of rows, a row a list of cells; every cell is written
through `csv.writer` from the string (or stringified) values the code
passes it. -/

/-- The user fields written by the user-mode CSV preamble. -/
structure UserData where
  uniqueId : String
  nickname : String
  followers : String
  following : String
  videoCount : String
deriving DecidableEq, Repr

/-- The video fields the CSV rows read (`.get` with default `''`). -/
structure VideoRec where
  id : String
  desc : String
  authorId : String
  digg : String
  share : String
  comments : String
  play : String
  createTime : String
deriving DecidableEq, Repr

/-- The comment fields the CSV rows read. -/
structure CommentRec where
  id : String
  userUniqueId : String
  text : String
  digg : String
  createTime : String
deriving DecidableEq, Repr

/-- A user-mode video data row: description truncated with `[:100]`. -/
def userVideoRow (v : VideoRec) : List String :=
  [v.id, pyTake 100 v.desc, v.digg, v.share, v.comments, v.play, v.createTime]

/-- `scrape_user` CSV: user-info preamble, blank row, video header, then
one row per video. -/
def user_csv (u : UserData) (videos : List VideoRec) : List (List String) :=
  [["Type", "Field", "Value"],
   ["User", "username", u.uniqueId],
   ["User", "nickname", u.nickname],
   ["User", "followers", u.followers],
   ["User", "following", u.following],
   ["User", "videos", u.videoCount],
   [],
   ["Video ID", "Description", "Likes", "Shares", "Comments", "Views", "Created"]] ++
  videos.map userVideoRow

/-- A trending/hashtag data row: author column, description truncated. -/
def authorVideoRow (v : VideoRec) : List String :=
  [v.id, v.authorId, pyTake 100 v.desc, v.digg, v.share, v.comments, v.play,
   v.createTime]

/-- `scrape_trending` CSV: header row then one row per video. -/
def trending_csv (videos : List VideoRec) : List (List String) :=
  ["Video ID", "Author", "Description", "Likes", "Shares", "Comments", "Views",
   "Created"] :: videos.map authorVideoRow

/-- `scrape_hashtag` CSV: identical layout to trending. -/
def hashtag_csv (videos : List VideoRec) : List (List String) :=
  ["Video ID", "Author", "Description", "Likes", "Shares", "Comments", "Views",
   "Created"] :: videos.map authorVideoRow

/-- A comment data row: text truncated with `[:100]`. -/
def commentRow (c : CommentRec) : List String :=
  [c.id, c.userUniqueId, pyTake 100 c.text, c.digg, c.createTime]

/-- The video info key/value fields written in video mode. -/
structure VideoInfo where
  id : String
  desc : String
  authorId : String
  digg : String
  share : String
  comments : String
  play : String
deriving DecidableEq, Repr

/-- `scrape_video` CSV: video-info key/value rows — the description row
(line 351) writes `video_info.get('desc', '')` with no truncation — then,
when comments were requested and collected, a blank row, the comment
header, and one row per comment. -/
def video_csv (info : VideoInfo) (includeComments : Bool)
    (comments : List CommentRec) : List (List String) :=
  [["Type", "Field", "Value"],
   ["Video", "id", info.id],
   ["Video", "description", info.desc],
   ["Video", "author", info.authorId],
   ["Video", "likes", info.digg],
   ["Video", "shares", info.share],
   ["Video", "comments", info.comments],
   ["Video", "views", info.play]] ++
  (if includeComments && !comments.isEmpty then
    [[]] ++
    [["Comment ID", "Author", "Text", "Likes", "Created"]] ++
    comments.map commentRow
  else [])

/-! ### CLI entry points (tiktok_scraper.py `main`, tiktok_scraper_mock.py
`main`) -/

/-- The four scrape modes. -/
inductive Mode where
  | user
  | trending
  | hashtag
  | video
deriving DecidableEq, Repr

/-- How a CLI run ends at the argument-handling stage: the process exits
with a status before doing anything else, or it goes on to run a scrape
action `a`. -/
inductive CliOutcome (γ : Type) where
  | exited (code : Int)
  | run (a : γ)
deriving DecidableEq, Repr

/-- `tiktok_scraper.main` (lines 378–409): `--target` and `--session` are
declared `required=True`, so argparse itself rejects an invocation missing
either one with a usage error — `parser.error` prints to stderr and calls
`sys.exit(2)` (Python stdlib behaviour) — before any session or network
work; otherwise the mode's scrape coroutine is run. -/
def dispatcher_main (mode : Mode) (target session : Option String) :
    CliOutcome (Mode × String) :=
  match target with
  | none => .exited 2
  | some t =>
    match session with
    | none => .exited 2
    | some _ => .run (mode, t)

/-- Python truthiness of `args.target`: falsy when the flag is absent
(`None`) and also when it is the empty string. -/
def targetTruthy : Option String → Bool
  | none => false
  | some t => t != ""

/-- `tiktok_scraper_mock.main` (lines 470–526): `--target` is optional at
the parser level; user/hashtag/video modes run `if not args.target` — which
also catches an empty-string target — and exit with status 1 after printing
an error; trending ignores the target. -/
def mock_main (mode : Mode) (target : Option String) :
    CliOutcome (Mode × Option String) :=
  match mode with
  | .user =>
    if targetTruthy target then .run (.user, target) else .exited 1
  | .trending => .run (.trending, target)
  | .hashtag =>
    if targetTruthy target then .run (.hashtag, target) else .exited 1
  | .video =>
    if targetTruthy target then .run (.video, target) else .exited 1

/-! ## Helper lemmas -/

/-- The Firefox ranking fold from an arbitrary pair of accumulators appends
the probe-true candidates to the first and the probe-false ones to the
second, in input order. -/
theorem prioritizeLoop_go (probe : α → Bool) (l : List α) (p o : List α) :
    l.foldl (ffRankStep probe) (p, o)
      = (p ++ l.filter probe, o ++ l.filter (fun c => !probe c)) := by
  induction l generalizing p o with
  | nil => simp
  | cons a t ih =>
    rw [List.foldl_cons]
    by_cases h : probe a
    · rw [show ffRankStep probe (p, o) a = (p ++ [a], o) by simp [ffRankStep, h]]
      rw [ih]
      simp [List.filter_cons, h]
    · rw [show ffRankStep probe (p, o) a = (p, o ++ [a]) by simp [ffRankStep, h]]
      rw [ih]
      simp [List.filter_cons, h]

/-- The Firefox ranking split is the pair of filters. -/
theorem prioritizeLoop_eq (probe : α → Bool) (l : List α) :
    prioritizeLoop probe l = (l.filter probe, l.filter (fun c => !probe c)) := by
  simpa using prioritizeLoop_go probe l [] []

/-- The Chrome/Edge ranking fold, when every candidate passes the `exists`
re-check, coincides with the Firefox one. -/
theorem prioritizeLoopEx_go (ex probe : α → Bool) (l : List α)
    (hex : ∀ c ∈ l, ex c = true) (p o : List α) :
    l.foldl (chRankStep ex probe) (p, o)
      = (p ++ l.filter probe, o ++ l.filter (fun c => !probe c)) := by
  induction l generalizing p o with
  | nil => simp
  | cons a t ih =>
    have ha : ex a = true := hex a (List.mem_cons_self a t)
    have ht : ∀ c ∈ t, ex c = true := fun c hc => hex c (List.mem_cons_of_mem a hc)
    rw [List.foldl_cons]
    by_cases h : probe a
    · rw [show chRankStep ex probe (p, o) a = (p ++ [a], o) by
        simp [chRankStep, ha, h]]
      rw [ih ht]
      simp [List.filter_cons, h]
    · rw [show chRankStep ex probe (p, o) a = (p, o ++ [a]) by
        simp [chRankStep, ha, h]]
      rw [ih ht]
      simp [List.filter_cons, h]

/-- The Chrome/Edge ranking split under the all-exist hypothesis. -/
theorem prioritizeLoopEx_eq (ex probe : α → Bool) (l : List α)
    (hex : ∀ c ∈ l, ex c = true) :
    prioritizeLoopEx ex probe l
      = (l.filter probe, l.filter (fun c => !probe c)) := by
  simpa using prioritizeLoopEx_go ex probe l hex [] []

/-! ## C1 -/

/-- C1: the prioritized/others ranking step inside each
`get_*_cookie_files` function is a stable partition: the output equals the
probe-true candidates (in input order) followed by the probe-false ones (in
input order) — which is exactly "trues before falses, original relative
order preserved within each group" — and it is a permutation of the input.
For the Chrome/Edge variant this holds for every candidate list whose
entries all pass the `exists` re-check, which covers every list the
enumeration step can hand it in a fixed file-system snapshot. -/
theorem rank_stable_partition (probe ex : α → Bool) (l : List α)
    (hex : ∀ c ∈ l, ex c = true) :
    (rankFirefox probe l
        = l.filter probe ++ l.filter (fun c => !probe c) ∧
      List.Perm (rankFirefox probe l) l) ∧
    (rankChromeEdge ex probe l
        = l.filter probe ++ l.filter (fun c => !probe c) ∧
      List.Perm (rankChromeEdge ex probe l) l) := by
  have hf : rankFirefox probe l
      = l.filter probe ++ l.filter (fun c => !probe c) := by
    unfold rankFirefox
    rw [prioritizeLoop_eq]
  have hc : rankChromeEdge ex probe l
      = l.filter probe ++ l.filter (fun c => !probe c) := by
    unfold rankChromeEdge
    rw [prioritizeLoopEx_eq ex probe l hex]
  refine ⟨⟨hf, ?_⟩, ⟨hc, ?_⟩⟩
  · rw [hf]; exact List.filter_append_perm probe l
  · rw [hc]; exact List.filter_append_perm probe l

/-- Witness for C1 at a concrete candidate list and probe. -/
theorem rank_stable_partition_witness :
    (rankFirefox (fun n : Nat => n % 2 == 0) [1, 2, 3, 4]
        = [1, 2, 3, 4].filter (fun n : Nat => n % 2 == 0) ++
          [1, 2, 3, 4].filter (fun n : Nat => !(n % 2 == 0)) ∧
      List.Perm (rankFirefox (fun n : Nat => n % 2 == 0) [1, 2, 3, 4])
        [1, 2, 3, 4]) ∧
    (rankChromeEdge (fun _ : Nat => true) (fun n : Nat => n % 2 == 0) [1, 2, 3, 4]
        = [1, 2, 3, 4].filter (fun n : Nat => n % 2 == 0) ++
          [1, 2, 3, 4].filter (fun n : Nat => !(n % 2 == 0)) ∧
      List.Perm
        (rankChromeEdge (fun _ : Nat => true) (fun n : Nat => n % 2 == 0)
          [1, 2, 3, 4])
        [1, 2, 3, 4]) :=
  rank_stable_partition (fun n => n % 2 == 0) (fun _ => true) [1, 2, 3, 4]
    (fun _ _ => rfl)

/-! ## C2 -/

/-- The video-collecting loop length bound: with a limit `n > 0` and a
running count `cnt < n`, at most `n - cnt` further items are collected. -/
theorem videosLoop_length_le (n : Int) (hn : 0 < n) :
    ∀ (stream : List α) (cnt : Int), cnt < n →
      (videosLoop (some n) stream cnt).length ≤ (n - cnt).toNat := by
  intro stream
  induction stream with
  | nil =>
    intro cnt _
    simp [videosLoop]
  | cons v rest ih =>
    intro cnt hcnt
    by_cases hbr : n ≤ cnt + 1
    · have hcond : (limitTruthy (some n) && decide ((some n).getD 0 ≤ cnt + 1))
          = true := by
        simp [limitTruthy]
        omega
      simp only [videosLoop, hcond, if_true]
      simp
      omega
    · have hcond : (limitTruthy (some n) && decide ((some n).getD 0 ≤ cnt + 1))
          = false := by
        simp [limitTruthy]
        omega
      simp only [videosLoop, hcond, Bool.false_eq_true, if_false]
      have hrec := ih (cnt + 1) (by omega)
      simp only [List.length_cons]
      omega

/-- The comment-collecting loop copies its stream. -/
theorem commentsLoop_length (l : List α) : (commentsLoop l).length = l.length := by
  induction l with
  | nil => rfl
  | cons c rest ih => simp [commentsLoop, ih]

/-- C2 counterexample: the claim says the comment-collecting loop never
yields more than the requested comment limit regardless of how many items
the remote stream offers, but the loop has no client-side stop: with
comment limit 2 and a remote stream yielding three items, all three are
accumulated. -/
theorem comment_limit_counterexample :
    (scrape_video_comments 2 (fun _ => ["a", "b", "c"])).length = 3 ∧
    ¬ (scrape_video_comments 2 (fun _ => ["a", "b", "c"])).length ≤ 2 := by
  constructor
  · rfl
  · decide

/-- C2 (amended): when the caller-supplied limit is positive, each
video-collecting loop (user, trending, hashtag) accumulates at most that
many items; the comment-collecting loop has no stop of its own — it passes
the comment limit to the remote stream as the requested count and copies
whatever comes back, so its result respects the limit exactly when the
stream yields no more than the requested count. -/
theorem limit_bound_amended (n : Int) (hn : 0 < n)
    (streamU streamT streamH : Int → List α)
    (cl : Int) (remoteC : Int → List β)
    (hc : (remoteC cl).length ≤ cl.toNat) :
    (scrape_user_videos (some n) streamU).length ≤ n.toNat ∧
    (scrape_trending_videos (some n) streamT).length ≤ n.toNat ∧
    (scrape_hashtag_videos (some n) streamH).length ≤ n.toNat ∧
    (scrape_video_comments cl remoteC).length ≤ cl.toNat := by
  have hb : ∀ s : List α, (videosLoop (some n) s 0).length ≤ n.toNat := by
    intro s
    have := videosLoop_length_le n hn s 0 hn
    omega
  refine ⟨hb _, hb _, hb _, ?_⟩
  unfold scrape_video_comments
  rw [commentsLoop_length]
  exact hc

/-- Witness for C2 (amended) at concrete limits and streams. -/
theorem limit_bound_amended_witness :
    (scrape_user_videos (some 2) (fun _ => ["a", "b", "c"])).length ≤ (2 : Int).toNat ∧
    (scrape_trending_videos (some 2) (fun _ => ["a", "b", "c"])).length ≤ (2 : Int).toNat ∧
    (scrape_hashtag_videos (some 2) (fun _ => ["a", "b", "c"])).length ≤ (2 : Int).toNat ∧
    (scrape_video_comments 2 (fun _ => ["x"])).length ≤ (2 : Int).toNat :=
  limit_bound_amended 2 (by decide) (fun _ => ["a", "b", "c"])
    (fun _ => ["a", "b", "c"]) (fun _ => ["a", "b", "c"]) 2 (fun _ => ["x"])
    (by decide)

/-! ## C3 -/

/-- C3 counterexample: the claim says the Dispatcher exits with status 1
when `--target` is missing, but `--target` is declared `required=True`, so
argparse rejects the invocation with a usage error and status 2. -/
theorem missing_target_counterexample :
    dispatcher_main Mode.user none (some "token") = CliOutcome.exited 2 ∧
    dispatcher_main Mode.user none (some "token") ≠ CliOutcome.exited 1 := by
  exact ⟨rfl, by decide⟩

/-- C3 (amended): a Dispatcher invocation without `--target` is rejected by
the argument parser itself — for every mode, trending included — with a
usage error and exit status 2, before any session or network work; the mock
CLI, whose `--target` is optional at the parser level, prints an error and
exits with status 1 for the user/hashtag/video modes.  In both CLIs the
outcome is an exit, never a scrape action, so no I/O beyond argument
parsing happens. -/
theorem missing_target_amended (mode : Mode) (session : Option String) :
    dispatcher_main mode none session = CliOutcome.exited 2 ∧
    (mode ≠ Mode.trending → mock_main mode none = CliOutcome.exited 1) := by
  refine ⟨rfl, ?_⟩
  intro hmode
  cases mode with
  | user => rfl
  | trending => exact absurd rfl hmode
  | hashtag => rfl
  | video => rfl

/-- Witness for C3 (amended) at user mode with a session supplied. -/
theorem missing_target_amended_witness :
    dispatcher_main Mode.user none (some "tok") = CliOutcome.exited 2 ∧
    mock_main Mode.user none = CliOutcome.exited 1 :=
  ⟨(missing_target_amended Mode.user (some "tok")).1,
   (missing_target_amended Mode.user (some "tok")).2 (by decide)⟩

/-! ## C4 -/

/-- C4 counterexample: in video mode the `description` info row (line 351)
is written without the `[:100]` truncation; with a 101-character
description the CSV contains a 101-character free-text field. -/
theorem csv_truncation_counterexample :
    (video_csv ⟨"id1", String.mk (List.replicate 101 'a'), "au", "1", "2", "3",
        "4"⟩ false [])[2]?
      = some ["Video", "description", String.mk (List.replicate 101 'a')] ∧
    (String.mk (List.replicate 101 'a')).length = 101 := by
  exact ⟨rfl, rfl⟩

/-- C4 (amended): each mode writes its fixed layout with one data row per
item — trending/hashtag: one header row then the data rows; user mode: a
seven-row user-info preamble plus the video header, then the data rows;
video mode: eight info rows, then (when comments were collected) a blank
row, the comment header and one row per comment.  Description and text
cells of per-item data rows are truncated to at most 100 characters, but
the video-mode `description` info row is written in full, untruncated. -/
theorem csv_layout_amended :
    (∀ (u : UserData) (videos : List VideoRec),
      (user_csv u videos).length = 8 + videos.length ∧
      user_csv u videos
        = [["Type", "Field", "Value"],
           ["User", "username", u.uniqueId],
           ["User", "nickname", u.nickname],
           ["User", "followers", u.followers],
           ["User", "following", u.following],
           ["User", "videos", u.videoCount],
           [],
           ["Video ID", "Description", "Likes", "Shares", "Comments", "Views",
            "Created"]] ++ videos.map userVideoRow) ∧
    (∀ videos : List VideoRec,
      (trending_csv videos).length = 1 + videos.length ∧
      (trending_csv videos)[0]?
        = some ["Video ID", "Author", "Description", "Likes", "Shares",
            "Comments", "Views", "Created"] ∧
      (trending_csv videos).drop 1 = videos.map authorVideoRow ∧
      hashtag_csv videos = trending_csv videos) ∧
    (∀ (info : VideoInfo) (cs : List CommentRec),
      (video_csv info true cs).length
        = if cs.isEmpty then 8 else 10 + cs.length) ∧
    (∀ v : VideoRec,
      (userVideoRow v)[1]? = some (pyTake 100 v.desc) ∧
      (authorVideoRow v)[2]? = some (pyTake 100 v.desc)) ∧
    (∀ c : CommentRec, (commentRow c)[2]? = some (pyTake 100 c.text)) ∧
    (∀ (n : Nat) (s : String), (pyTake n s).length ≤ n) ∧
    (∀ (info : VideoInfo) (b : Bool) (cs : List CommentRec),
      (video_csv info b cs)[2]? = some ["Video", "description", info.desc]) := by
  refine ⟨?_, ?_, ?_, ?_, ?_, ?_, ?_⟩
  · intro u videos
    constructor
    · simp [user_csv]
      omega
    · rfl
  · intro videos
    refine ⟨?_, by simp [trending_csv], rfl, rfl⟩
    simp [trending_csv]
    omega
  · intro info cs
    by_cases h : cs.isEmpty
    · simp [video_csv, h]
    · simp [video_csv, h]
      omega
  · intro v
    exact ⟨rfl, rfl⟩
  · intro c
    rfl
  · intro n s
    exact List.length_take_le n s.data
  · intro info b cs
    cases b <;> rfl

/-! ## C5 -/

/-- C5 counterexample: the claim says a text value beginning with the
encryption marker `'v1'` is skipped with a diagnostic message, but the TEXT
branch (lines 315–319) has no diagnostic — the value falls through
silently; only the BLOB branch prints the encrypted-cookie warning. -/
theorem encrypted_skip_counterexample :
    chromeValueStep (CookieValue.text "v1abc") = StepResult.skipSilent ∧
    chromeValueStep (CookieValue.text "v1abc") ≠ StepResult.skipWarn := by
  exact ⟨rfl, by decide⟩

/-- C5 (amended): a binary value that cannot be decoded as UTF-8 is skipped
with the encrypted-cookie diagnostic; a text value beginning with `'v1'` is
skipped silently, with no diagnostic; in neither case is any value
returned — the search just continues and no decryption is attempted
(decryption does not exist in the model of the code at all: the only
successful outcome is the decoded/plain value itself, stripped). -/
theorem encrypted_skip_amended :
    chromeValueStep (CookieValue.blob none) = StepResult.skipWarn ∧
    (∀ s : String, pyStartsWith "v1" s = true →
      chromeValueStep (CookieValue.text s) = StepResult.skipSilent) ∧
    (∀ s t : String, chromeValueStep (CookieValue.text s) = StepResult.ret t →
      pyStartsWith "v1" s = false) ∧
    (∀ t : String, chromeValueStep (CookieValue.blob none) ≠ StepResult.ret t) := by
  have hsil : ∀ s : String, pyStartsWith "v1" s = true →
      chromeValueStep (CookieValue.text s) = StepResult.skipSilent := by
    intro s hs
    simp only [chromeValueStep]
    by_cases he : (s == "") = true
    · rw [if_pos he]
    · rw [if_neg he, if_neg (by simp [hs])]
  refine ⟨rfl, hsil, ?_, ?_⟩
  · intro s t hret
    cases h : pyStartsWith "v1" s
    · rfl
    · rw [hsil s h] at hret
      cases hret
  · intro t h
    cases h

/-- Witness for C5 (amended) at concrete values. -/
theorem encrypted_skip_amended_witness :
    chromeValueStep (CookieValue.blob none) = StepResult.skipWarn ∧
    chromeValueStep (CookieValue.text "v1xyz") = StepResult.skipSilent ∧
    pyStartsWith "v1" "tok" = false ∧
    chromeValueStep (CookieValue.blob none) ≠ StepResult.ret "q" :=
  ⟨encrypted_skip_amended.1,
   encrypted_skip_amended.2.1 "v1xyz" (by decide),
   encrypted_skip_amended.2.2.1 "tok" "tok" (by decide),
   encrypted_skip_amended.2.2.2 "q"⟩

/-! ## C6 -/

/-- A search over candidates none of which yields a token returns `none`. -/
theorem searchList_eq_none (f : δ → Option String) (l : List δ)
    (h : ∀ x ∈ l, f x = none) : searchList f l = none := by
  induction l with
  | nil => rfl
  | cons a t ih =>
    have ha := h a (List.mem_cons_self a t)
    simp only [searchList, ha]
    exact ih (fun x hx => h x (List.mem_cons_of_mem a hx))

/-- The Firefox ranking step only permutes: its output draws from its
input. -/
theorem mem_of_mem_rankFirefox (probe : α → Bool) {x : α} {l : List α}
    (hx : x ∈ rankFirefox probe l) : x ∈ l := by
  unfold rankFirefox at hx
  rw [prioritizeLoop_eq] at hx
  rcases List.mem_append.1 hx with h | h
  · exact (List.mem_filter.1 h).1
  · exact (List.mem_filter.1 h).1

/-- The Chrome/Edge ranking step draws from its input when every candidate
passes the `exists` re-check. -/
theorem mem_of_mem_rankChromeEdge (ex probe : α → Bool) {x : α} {l : List α}
    (hex : ∀ c ∈ l, ex c = true) (hx : x ∈ rankChromeEdge ex probe l) : x ∈ l := by
  unfold rankChromeEdge at hx
  rw [prioritizeLoopEx_eq ex probe l hex] at hx
  rcases List.mem_append.1 hx with h | h
  · exact (List.mem_filter.1 h).1
  · exact (List.mem_filter.1 h).1

/-- C6: on a snapshot where every browser profile database is missing
(empty candidate lists are covered by vacuity) or malformed (every query on
it raises), `extract_ms_token` returns `None` — the model is a total
function, so no exception escapes: a malformed database makes the probe
report `False` (the discovery-time error is swallowed) and makes each
per-file extractor return `None`. -/
theorem extract_never_raises (env : Env)
    (hf : ∀ db ∈ env.firefoxDBs, db = FfDB.malformed)
    (hc : ∀ db ∈ env.chromeDBs, db = ChDB.malformed)
    (he : ∀ db ∈ env.edgeDBs, db = ChDB.malformed) :
    extract_ms_token env none = none ∧
    has_tiktok_cookies_firefox FfDB.malformed = false ∧
    has_tiktok_cookies_chrome ChDB.malformed = false := by
  refine ⟨?_, rfl, rfl⟩
  have hff : tryBrowser env Browser.firefox = none := by
    apply searchList_eq_none
    intro x hx
    have hxl : x ∈ env.firefoxDBs := by
      unfold get_firefox_cookie_files at hx
      by_cases hemp : env.firefoxDBs.isEmpty
      · rw [if_pos hemp] at hx
        cases hx
      · rw [if_neg hemp] at hx
        exact mem_of_mem_rankFirefox _ hx
    rw [hf x hxl]
    rfl
  have hch : tryBrowser env Browser.chrome = none := by
    apply searchList_eq_none
    intro x hx
    have hxl : x ∈ env.chromeDBs :=
      mem_of_mem_rankChromeEdge _ _ (fun _ _ => rfl) hx
    rw [hc x hxl]
    rfl
  have hed : tryBrowser env Browser.edge = none := by
    apply searchList_eq_none
    intro x hx
    have hxl : x ∈ env.edgeDBs :=
      mem_of_mem_rankChromeEdge _ _ (fun _ _ => rfl) hx
    rw [he x hxl]
    rfl
  show searchList (tryBrowser env) [Browser.firefox, Browser.chrome, Browser.edge]
      = none
  simp [searchList, hff, hch, hed]

/-- Witness for C6 on a snapshot with one malformed database per family. -/
theorem extract_never_raises_witness :
    extract_ms_token ⟨[FfDB.malformed], [ChDB.malformed], [ChDB.malformed]⟩ none
      = none ∧
    has_tiktok_cookies_firefox FfDB.malformed = false ∧
    has_tiktok_cookies_chrome ChDB.malformed = false :=
  extract_never_raises ⟨[FfDB.malformed], [ChDB.malformed], [ChDB.malformed]⟩
    (by simp) (by simp) (by simp)

/-! ## C8 -/

/-- C8: with no caller-supplied limit the count requested from the remote
stream is the mode-specific default: 1000 for a user's videos, 100 for
trending, 100 for hashtag videos, and 30 for comments (the argparse default
of `--comment-limit` when `--comments` is given without it). -/
theorem default_caps :
    user_videos_request_count none = 1000 ∧
    trending_request_count none = 100 ∧
    hashtag_request_count none = 100 ∧
    video_comment_limit true none = some 30 := by
  exact ⟨rfl, rfl, rfl, rfl⟩

/-! ## C9 -/

/-- C9: the Locator CLI exits with status 0 exactly when the extraction
completed with a token (saving failures are caught inside `save_ms_token`
and cannot change the status), and with status 1 when no token was found,
a top-level exception was raised, or the run was interrupted. -/
theorem locator_exit_iff (r : LocatorRun) :
    (locator_exit_code r = 0 ↔ ∃ t, r = LocatorRun.completed (some t)) ∧
    (locator_exit_code r = 1 ↔ ∀ t, r ≠ LocatorRun.completed (some t)) := by
  cases r with
  | completed o =>
    cases o with
    | none =>
      refine ⟨Iff.intro (fun h => absurd h (by decide)) ?_,
        Iff.intro (fun _ t ht => by simp at ht) (fun _ => rfl)⟩
      rintro ⟨t, ht⟩
      simp at ht
    | some t =>
      exact ⟨Iff.intro (fun _ => ⟨t, rfl⟩) (fun _ => rfl),
        Iff.intro (fun h => by simp [locator_exit_code] at h)
          (fun h => absurd rfl (h t))⟩
  | interrupted =>
    refine ⟨Iff.intro (fun h => absurd h (by decide)) ?_,
      Iff.intro (fun _ t ht => by simp at ht) (fun _ => rfl)⟩
    rintro ⟨t, ht⟩
    simp at ht
  | raised =>
    refine ⟨Iff.intro (fun h => absurd h (by decide)) ?_,
      Iff.intro (fun _ t ht => by simp at ht) (fun _ => rfl)⟩
    rintro ⟨t, ht⟩
    simp at ht

/-! ## C10 -/

/-- C10: a profile directory named `Profile 1` (with its `Cookies` file
present) is matched by both the `Profile */Cookies` glob and the
`Profile [0-9]*/Cookies` glob, so the Chrome/Edge candidate enumeration
appends the same path twice and the candidate sequence handed to ranking
and extraction contains a duplicate. -/
theorem chrome_candidates_duplicate :
    enumerateChromeCandidates false ["Profile 1"]
      = ["Profile 1/Cookies", "Profile 1/Cookies"] ∧
    ¬ (enumerateChromeCandidates false ["Profile 1"]).Nodup := by
  exact ⟨rfl, by decide⟩

/-! ## C7 — string-matching lemmas -/

/-- A verified initial segment can be split off. -/
theorem isPrefixList_exists : ∀ {p l : List Char},
    isPrefixList p l = true → ∃ t, l = p ++ t := by
  intro p
  induction p with
  | nil => exact fun h => ⟨_, rfl⟩
  | cons a as ih =>
    intro l h
    cases l with
    | nil => exact absurd h (by simp [isPrefixList])
    | cons b bs =>
      simp only [isPrefixList, Bool.and_eq_true] at h
      obtain ⟨h1, h2⟩ := h
      obtain ⟨t, ht⟩ := ih h2
      cases eq_of_beq h1
      exact ⟨t, by simp [ht]⟩

/-- Every list starts with itself. -/
theorem isPrefixList_append_self (p t : List Char) :
    isPrefixList p (p ++ t) = true := by
  induction p with
  | nil => rfl
  | cons a as ih => simp [isPrefixList, ih]

/-- An initial segment occurs inside. -/
theorem isSubList_of_isPrefixList {p l : List Char}
    (h : isPrefixList p l = true) : isSubList p l = true := by
  cases l with
  | nil =>
    cases p with
    | nil => rfl
    | cons a as => exact absurd h (by simp [isPrefixList])
  | cons c rest => simp [isSubList, h]

/-- Occurrence is preserved by prepending. -/
theorem isSubList_append_left (p m l : List Char)
    (h : isSubList p l = true) : isSubList p (m ++ l) = true := by
  induction m with
  | nil => simpa using h
  | cons c cs ih => simp [isSubList, ih]

/-- A verified occurrence can be split out. -/
theorem isSubList_exists : ∀ {p l : List Char},
    isSubList p l = true → ∃ m t, l = m ++ p ++ t := by
  intro p l
  induction l with
  | nil =>
    intro h
    have hp : p = [] := by
      cases p with
      | nil => rfl
      | cons a as => exact absurd h (by simp [isSubList])
    exact ⟨[], [], by simp [hp]⟩
  | cons c rest ih =>
    intro h
    simp only [isSubList, Bool.or_eq_true] at h
    rcases h with h | h
    · obtain ⟨t, ht⟩ := isPrefixList_exists h
      exact ⟨[], t, by simp [ht]⟩
    · obtain ⟨m, t, hmt⟩ := ih h
      exact ⟨c :: m, t, by simp [hmt]⟩

/-- Every list occurs inside itself followed by anything. -/
theorem isSubList_self_append (p t : List Char) :
    isSubList p (p ++ t) = true :=
  isSubList_of_isPrefixList (isPrefixList_append_self p t)

/-- Occurrence survives arbitrary surroundings. -/
theorem isSubList_extend {p q : List Char} (m t : List Char)
    (h : isSubList p q = true) : isSubList p (m ++ q ++ t) = true := by
  obtain ⟨m2, t2, rfl⟩ := isSubList_exists h
  have hr : m ++ (m2 ++ p ++ t2) ++ t = (m ++ m2) ++ (p ++ (t2 ++ t)) := by
    simp [List.append_assoc]
  rw [hr]
  exact isSubList_append_left _ _ _ (isSubList_self_append p (t2 ++ t))

/-- A `LIKE '%pat'` match gives a `LIKE '%sub%'` match for any `sub`
occurring in `pat`. -/
theorem likeAnywhere_of_likeSuffix {pat sub s : String}
    (hsub : isSubList sub.data pat.data = true)
    (h : likeSuffix pat s = true) : likeAnywhere sub s = true := by
  unfold likeSuffix isSuffixList at h
  obtain ⟨t, ht⟩ := isPrefixList_exists h
  have hs : s.data = t.reverse ++ pat.data := by
    have h2 := congrArg List.reverse ht
    simpa using h2
  unfold likeAnywhere
  rw [hs, show t.reverse ++ pat.data = t.reverse ++ pat.data ++ [] by simp]
  exact isSubList_extend _ _ hsub

/-! ## C7 — `fetchone` under a uniqueness hypothesis -/

/-- When every row matching `p` equals `r` and `r` is present, `find?`
returns `r` exactly when `r` matches. -/
theorem find_unique {β : Type} (p : β → Bool) (r : β) :
    ∀ (l : List β), r ∈ l → (∀ x ∈ l, p x = true → x = r) →
      l.find? p = if p r = true then some r else none := by
  intro l
  induction l with
  | nil => exact fun hr _ => absurd hr (List.not_mem_nil r)
  | cons a t ih =>
    intro hr hu
    by_cases hpa : p a = true
    · have ha : a = r := hu a (List.mem_cons_self a t) hpa
      subst ha
      rw [List.find?_cons_of_pos _ hpa, if_pos hpa]
    · rw [List.find?_cons_of_neg _ hpa]
      rcases List.mem_cons.1 hr with heq | hrt
      · rw [if_neg (by rw [← heq] at hpa; exact hpa)]
        refine List.find?_eq_none.2 ?_
        intro x hx hpx
        have hxr := hu x (List.mem_cons_of_mem a hx) hpx
        rw [hxr, heq] at hpx
        exact hpa hpx
      · exact ih hrt (fun x hx hpx => hu x (List.mem_cons_of_mem a hx) hpx)

/-- Helper: an optional result that is either absent or the expected
token. -/
def OkOpt (v : String) (o : Option String) : Prop :=
  o = none ∨ o = some v

/-- A guarded hit is absent-or-expected. -/
theorem okOpt_if (v : String) (c : Prop) [Decidable c] :
    OkOpt v (if c then some v else none) := by
  by_cases h : c
  · exact Or.inr (by rw [if_pos h])
  · exact Or.inl (by rw [if_neg h])

/-- Absent-or-expected is stable under the `if hasBD` guard. -/
theorem okOpt_guard {v : String} {o : Option String} (c : Bool)
    (h : OkOpt v o) : OkOpt v (if c then o else none) := by
  cases c
  · exact Or.inl (by rw [if_neg (by simp)])
  · rw [if_pos rfl]
    exact h

/-- Absent-or-expected propagates through the query-chain fallback. -/
theorem orElse_okOpt {v : String} {a b : Option String}
    (ha : OkOpt v a) (hb : OkOpt v b) : OkOpt v (a <|> b) := by
  rcases ha with ha | ha
  · rw [ha]
    simpa using hb
  · rw [ha]
    exact Or.inr (by simp)

/-- The chain yields the token when an earlier attempt already did. -/
theorem orElse_some_left {v : String} {a b : Option String}
    (ha : a = some v) : (a <|> b) = some v := by
  rw [ha]
  simp

/-- The chain yields the token when later attempts produce it and earlier
ones are absent-or-expected. -/
theorem orElse_some_right {v : String} {a b : Option String}
    (ha : OkOpt v a) (hb : b = some v) : (a <|> b) = some v := by
  rcases ha with ha | ha
  · rw [ha, hb]
    simp
  · rw [ha]
    simp

/-- An all-`none` chain is `none`. -/
theorem orElse_none {a b : Option String} (ha : a = none) (hb : b = none) :
    (a <|> b) = none := by
  rw [ha, hb]
  simp

/-! ## C7 â query attempts -/

/-- A row matching a `name=cn` filter for either cookie name satisfies the
`nameIsMsToken` probe condition. -/
theorem nameIsMsToken_of_eq {n cn : String}
    (hcn : cn = "msToken" ∨ cn = "ms_token") (h : (n == cn) = true) :
    nameIsMsToken n = true := by
  rcases hcn with rfl | rfl
  · simp [nameIsMsToken, eq_of_beq h]
  · simp [nameIsMsToken, eq_of_beq h]

/-- One Firefox query attempt under the uniqueness hypothesis. -/
theorem ffTryQuery_of_unique (rows : List FfRow) (r : FfRow) (q : FfRow → Bool)
    (hr : r ∈ rows) (hq : ∀ x ∈ rows, q x = true → x = r)
    (hval : pyStrip r.value ≠ "") :
    ffTryQuery rows q = if q r = true then some (pyStrip r.value) else none := by
  unfold ffTryQuery
  rw [find_unique q r rows hr hq]
  have hne : r.value ≠ "" := by
    intro he
    apply hval
    rw [he]
    rfl
  by_cases h : q r = true
  · simp [h, hne, hval]
  · simp [h]

/-- One Chrome/Edge query attempt under the uniqueness hypothesis, for a
row carrying a clean plain-text value. -/
theorem chTryQuery_of_unique (rows : List ChRow) (r : ChRow) (q : ChRow → Bool)
    (s : String) (hr : r ∈ rows) (hq : ∀ x ∈ rows, q x = true → x = r)
    (hv : r.value = CookieValue.text s) (hstrip : pyStrip s ≠ "")
    (hv1 : pyStartsWith "v1" s = false) :
    chTryQuery rows q = if q r = true then some (pyStrip s) else none := by
  unfold chTryQuery
  rw [find_unique q r rows hr hq]
  have hsne : (s == "") = false := by
    have hne : s ≠ "" := by
      intro he
      apply hstrip
      rw [he]
      rfl
    simp [hne]
  have hstep : chromeValueStep r.value = StepResult.ret (pyStrip s) := by
    rw [hv]
    simp only [chromeValueStep]
    rw [if_neg (by simp [hsne]), if_pos (by simp [hstrip, hv1])]
  by_cases h : q r = true
  · simp [h, hstep]
  · simp [h]

/-- Rows matched by Firefox query 1 satisfy the uniqueness condition. -/
theorem ffQ1_cond {cn : String} (x : FfRow)
    (hcn : cn = "msToken" ∨ cn = "ms_token") (h : ffQ1 cn x = true) :
    nameIsMsToken x.name = true ∧
      (bdIsTiktok x.baseDomain = true ∨ likeAnywhere "tiktok" x.host = true) := by
  unfold ffQ1 at h
  rw [Bool.and_eq_true] at h
  exact ⟨nameIsMsToken_of_eq hcn h.1, Or.inl h.2⟩

/-- Rows matched by Firefox query 2 satisfy the uniqueness condition. -/
theorem ffQ2_cond {cn : String} (x : FfRow)
    (hcn : cn = "msToken" ∨ cn = "ms_token") (h : ffQ2 cn x = true) :
    nameIsMsToken x.name = true ∧
      (bdIsTiktok x.baseDomain = true ∨ likeAnywhere "tiktok" x.host = true) := by
  unfold ffQ2 at h
  rw [Bool.and_eq_true] at h
  obtain ⟨h1, h2⟩ := h
  refine ⟨nameIsMsToken_of_eq hcn h1, Or.inr ?_⟩
  simp only [Bool.or_eq_true] at h2
  rcases h2 with ((h2 | h2) | h2) | h2
  · rw [eq_of_beq h2]
    decide
  · rw [eq_of_beq h2]
    decide
  · rw [eq_of_beq h2]
    decide
  · exact likeAnywhere_of_likeSuffix (by decide) h2

/-- Rows matched by Firefox query 3 satisfy the uniqueness condition. -/
theorem ffQ3_cond {cn : String} (x : FfRow)
    (hcn : cn = "msToken" ∨ cn = "ms_token") (h : ffQ3 cn x = true) :
    nameIsMsToken x.name = true ∧
      (bdIsTiktok x.baseDomain = true ∨ likeAnywhere "tiktok" x.host = true) := by
  unfold ffQ3 at h
  rw [Bool.and_eq_true] at h
  exact ⟨nameIsMsToken_of_eq hcn h.1, Or.inr h.2⟩

/-- Rows matched by Chrome/Edge query 1 satisfy the uniqueness condition. -/
theorem chQ1_cond {cn : String} (x : ChRow)
    (hcn : cn = "msToken" ∨ cn = "ms_token") (h : chQ1 cn x = true) :
    nameIsMsToken x.name = true ∧ likeAnywhere "tiktok" x.host_key = true := by
  unfold chQ1 at h
  rw [Bool.and_eq_true] at h
  exact ⟨nameIsMsToken_of_eq hcn h.1,
    likeAnywhere_of_likeSuffix (by decide) h.2⟩

/-- Rows matched by Chrome/Edge query 2 satisfy the uniqueness condition. -/
theorem chQ2_cond {cn : String} (x : ChRow)
    (hcn : cn = "msToken" ∨ cn = "ms_token") (h : chQ2 cn x = true) :
    nameIsMsToken x.name = true ∧ likeAnywhere "tiktok" x.host_key = true := by
  unfold chQ2 at h
  rw [Bool.and_eq_true] at h
  exact ⟨nameIsMsToken_of_eq hcn h.1,
    likeAnywhere_of_likeSuffix (by decide) h.2⟩

/-- Rows matched by Chrome/Edge query 3 satisfy the uniqueness condition. -/
theorem chQ3_cond {cn : String} (x : ChRow)
    (hcn : cn = "msToken" ∨ cn = "ms_token") (h : chQ3 cn x = true) :
    nameIsMsToken x.name = true ∧ likeAnywhere "tiktok" x.host_key = true := by
  unfold chQ3 at h
  rw [Bool.and_eq_true] at h
  refine ⟨nameIsMsToken_of_eq hcn h.1, ?_⟩
  rw [eq_of_beq h.2]
  decide

/-- Rows matched by Chrome/Edge query 4 satisfy the uniqueness condition. -/
theorem chQ4_cond {cn : String} (x : ChRow)
    (hcn : cn = "msToken" ∨ cn = "ms_token") (h : chQ4 cn x = true) :
    nameIsMsToken x.name = true ∧ likeAnywhere "tiktok" x.host_key = true := by
  unfold chQ4 at h
  rw [Bool.and_eq_true] at h
  exact ⟨nameIsMsToken_of_eq hcn h.1, h.2⟩

/-! ## C7 — the full query chains -/

/-- When the unique TikTok `msToken` row carries the queried cookie name,
the per-name query chain returns its stripped value. -/
theorem ffTryName_hit (hasBD : Bool) (rows : List FfRow) (r : FfRow)
    (cn : String) (hr : r ∈ rows) (hcn : cn = "msToken" ∨ cn = "ms_token")
    (hname : r.name = cn)
    (hhost : likeAnywhere "tiktok" r.host = true)
    (hval : pyStrip r.value ≠ "")
    (huniq : ∀ x ∈ rows, nameIsMsToken x.name = true →
      (bdIsTiktok x.baseDomain = true ∨ likeAnywhere "tiktok" x.host = true) →
      x = r) :
    ffTryName hasBD rows cn = some (pyStrip r.value) := by
  have hq1 : ∀ x ∈ rows, ffQ1 cn x = true → x = r := fun x hx h =>
    huniq x hx (ffQ1_cond x hcn h).1 (ffQ1_cond x hcn h).2
  have hq2 : ∀ x ∈ rows, ffQ2 cn x = true → x = r := fun x hx h =>
    huniq x hx (ffQ2_cond x hcn h).1 (ffQ2_cond x hcn h).2
  have hq3 : ∀ x ∈ rows, ffQ3 cn x = true → x = r := fun x hx h =>
    huniq x hx (ffQ3_cond x hcn h).1 (ffQ3_cond x hcn h).2
  have e1 := ffTryQuery_of_unique rows r (ffQ1 cn) hr hq1 hval
  have e2 := ffTryQuery_of_unique rows r (ffQ2 cn) hr hq2 hval
  have e3 := ffTryQuery_of_unique rows r (ffQ3 cn) hr hq3 hval
  have hq3r : ffQ3 cn r = true := by
    unfold ffQ3
    simp [hname, hhost]
  unfold ffTryName
  apply orElse_some_right
  · apply orElse_okOpt
    · apply okOpt_guard
      rw [e1]
      exact okOpt_if _ _
    · rw [e2]
      exact okOpt_if _ _
  · rw [e3, if_pos hq3r]

/-- When the unique TikTok `msToken` row carries the other cookie name, the
per-name query chain finds nothing. -/
theorem ffTryName_miss (hasBD : Bool) (rows : List FfRow) (r : FfRow)
    (cn : String) (hr : r ∈ rows) (hcn : cn = "msToken" ∨ cn = "ms_token")
    (hname : r.name ≠ cn)
    (hval : pyStrip r.value ≠ "")
    (huniq : ∀ x ∈ rows, nameIsMsToken x.name = true →
      (bdIsTiktok x.baseDomain = true ∨ likeAnywhere "tiktok" x.host = true) →
      x = r) :
    ffTryName hasBD rows cn = none := by
  have hq1 : ∀ x ∈ rows, ffQ1 cn x = true → x = r := fun x hx h =>
    huniq x hx (ffQ1_cond x hcn h).1 (ffQ1_cond x hcn h).2
  have hq2 : ∀ x ∈ rows, ffQ2 cn x = true → x = r := fun x hx h =>
    huniq x hx (ffQ2_cond x hcn h).1 (ffQ2_cond x hcn h).2
  have hq3 : ∀ x ∈ rows, ffQ3 cn x = true → x = r := fun x hx h =>
    huniq x hx (ffQ3_cond x hcn h).1 (ffQ3_cond x hcn h).2
  have e1 := ffTryQuery_of_unique rows r (ffQ1 cn) hr hq1 hval
  have e2 := ffTryQuery_of_unique rows r (ffQ2 cn) hr hq2 hval
  have e3 := ffTryQuery_of_unique rows r (ffQ3 cn) hr hq3 hval
  have hbeq : (r.name == cn) = false := by simp [hname]
  have h1r : ffQ1 cn r = false := by
    unfold ffQ1
    simp [hbeq]
  have h2r : ffQ2 cn r = false := by
    unfold ffQ2
    simp [hbeq]
  have h3r : ffQ3 cn r = false := by
    unfold ffQ3
    simp [hbeq]
  unfold ffTryName
  apply orElse_none
  · apply orElse_none
    · cases hasBD
      · rw [if_neg (by simp)]
      · rw [if_pos rfl, e1, h1r]
        simp
    · rw [e2, h2r]
      simp
  · rw [e3, h3r]
    simp

/-- Chrome/Edge per-name chain, name matches. -/
theorem chTryName_hit (rows : List ChRow) (r : ChRow) (s : String)
    (cn : String) (hr : r ∈ rows) (hcn : cn = "msToken" ∨ cn = "ms_token")
    (hname : r.name = cn)
    (hhost : likeAnywhere "tiktok" r.host_key = true)
    (hv : r.value = CookieValue.text s)
    (hstrip : pyStrip s ≠ "")
    (hv1 : pyStartsWith "v1" s = false)
    (huniq : ∀ x ∈ rows, nameIsMsToken x.name = true →
      likeAnywhere "tiktok" x.host_key = true → x = r) :
    chTryName rows cn = some (pyStrip s) := by
  have hq1 : ∀ x ∈ rows, chQ1 cn x = true → x = r := fun x hx h =>
    huniq x hx (chQ1_cond x hcn h).1 (chQ1_cond x hcn h).2
  have hq2 : ∀ x ∈ rows, chQ2 cn x = true → x = r := fun x hx h =>
    huniq x hx (chQ2_cond x hcn h).1 (chQ2_cond x hcn h).2
  have hq3 : ∀ x ∈ rows, chQ3 cn x = true → x = r := fun x hx h =>
    huniq x hx (chQ3_cond x hcn h).1 (chQ3_cond x hcn h).2
  have hq4 : ∀ x ∈ rows, chQ4 cn x = true → x = r := fun x hx h =>
    huniq x hx (chQ4_cond x hcn h).1 (chQ4_cond x hcn h).2
  have e1 := chTryQuery_of_unique rows r (chQ1 cn) s hr hq1 hv hstrip hv1
  have e2 := chTryQuery_of_unique rows r (chQ2 cn) s hr hq2 hv hstrip hv1
  have e3 := chTryQuery_of_unique rows r (chQ3 cn) s hr hq3 hv hstrip hv1
  have e4 := chTryQuery_of_unique rows r (chQ4 cn) s hr hq4 hv hstrip hv1
  have hq4r : chQ4 cn r = true := by
    unfold chQ4
    simp [hname, hhost]
  unfold chTryName
  apply orElse_some_right
  · apply orElse_okOpt
    · apply orElse_okOpt
      · rw [e1]
        exact okOpt_if _ _
      · rw [e2]
        exact okOpt_if _ _
    · rw [e3]
      exact okOpt_if _ _
  · rw [e4, if_pos hq4r]

/-- Chrome/Edge per-name chain, name differs. -/
theorem chTryName_miss (rows : List ChRow) (r : ChRow) (s : String)
    (cn : String) (hr : r ∈ rows) (hcn : cn = "msToken" ∨ cn = "ms_token")
    (hname : r.name ≠ cn)
    (hv : r.value = CookieValue.text s)
    (hstrip : pyStrip s ≠ "")
    (hv1 : pyStartsWith "v1" s = false)
    (huniq : ∀ x ∈ rows, nameIsMsToken x.name = true →
      likeAnywhere "tiktok" x.host_key = true → x = r) :
    chTryName rows cn = none := by
  have hq1 : ∀ x ∈ rows, chQ1 cn x = true → x = r := fun x hx h =>
    huniq x hx (chQ1_cond x hcn h).1 (chQ1_cond x hcn h).2
  have hq2 : ∀ x ∈ rows, chQ2 cn x = true → x = r := fun x hx h =>
    huniq x hx (chQ2_cond x hcn h).1 (chQ2_cond x hcn h).2
  have hq3 : ∀ x ∈ rows, chQ3 cn x = true → x = r := fun x hx h =>
    huniq x hx (chQ3_cond x hcn h).1 (chQ3_cond x hcn h).2
  have hq4 : ∀ x ∈ rows, chQ4 cn x = true → x = r := fun x hx h =>
    huniq x hx (chQ4_cond x hcn h).1 (chQ4_cond x hcn h).2
  have e1 := chTryQuery_of_unique rows r (chQ1 cn) s hr hq1 hv hstrip hv1
  have e2 := chTryQuery_of_unique rows r (chQ2 cn) s hr hq2 hv hstrip hv1
  have e3 := chTryQuery_of_unique rows r (chQ3 cn) s hr hq3 hv hstrip hv1
  have e4 := chTryQuery_of_unique rows r (chQ4 cn) s hr hq4 hv hstrip hv1
  have hbeq : (r.name == cn) = false := by simp [hname]
  have h1r : chQ1 cn r = false := by
    unfold chQ1
    simp [hbeq]
  have h2r : chQ2 cn r = false := by
    unfold chQ2
    simp [hbeq]
  have h3r : chQ3 cn r = false := by
    unfold chQ3
    simp [hbeq]
  have h4r : chQ4 cn r = false := by
    unfold chQ4
    simp [hbeq]
  unfold chTryName
  apply orElse_none
  · apply orElse_none
    · apply orElse_none
      · rw [e1, h1r]
        simp
      · rw [e2, h2r]
        simp
    · rw [e3, h3r]
      simp
  · rw [e4, h4r]
    simp

/-! ## C7 -/

/-- C7 counterexample: a Chrome/Edge cookie database whose only `msToken`
row for the target domain carries the non-empty plain-text value
`"v1token123"` — the claim says extraction returns that value (trimmed,
i.e. itself), but the `'v1'` heuristic skips it and extraction returns
`none`. -/
theorem msToken_extraction_counterexample :
    extract_ms_token_from_chrome_edge
        (ChDB.ok [⟨"msToken", "www.tiktok.com", CookieValue.text "v1token123"⟩])
      = none ∧
    pyStrip "v1token123" = "v1token123" := by
  exact ⟨by decide, by decide⟩

/-- C7 (amended): given a cookie database whose unique row with name
`msToken`/`ms_token` and a TikTok domain carries a value that is non-empty
after trimming — and, for the Chrome/Edge family, is plain text not
beginning with the `'v1'` encryption marker — the per-file extraction
functions return exactly that row's value with surrounding whitespace
trimmed; the result is a fixed value, independent of which fallback query
in the priority list matches first. -/
theorem msToken_extraction_amended
    (hasBD : Bool) (rows : List FfRow) (r : FfRow)
    (hr : r ∈ rows)
    (hname : r.name = "msToken" ∨ r.name = "ms_token")
    (hhost : likeAnywhere "tiktok" r.host = true)
    (hval : pyStrip r.value ≠ "")
    (huniq : ∀ x ∈ rows, nameIsMsToken x.name = true →
      (bdIsTiktok x.baseDomain = true ∨ likeAnywhere "tiktok" x.host = true) →
      x = r)
    (crows : List ChRow) (cr : ChRow) (s : String)
    (hcr : cr ∈ crows)
    (hcname : cr.name = "msToken" ∨ cr.name = "ms_token")
    (hchost : likeAnywhere "tiktok" cr.host_key = true)
    (hcv : cr.value = CookieValue.text s)
    (hcstrip : pyStrip s ≠ "")
    (hcv1 : pyStartsWith "v1" s = false)
    (hcuniq : ∀ x ∈ crows, nameIsMsToken x.name = true →
      likeAnywhere "tiktok" x.host_key = true → x = cr) :
    extract_ms_token_from_firefox (FfDB.ok hasBD rows)
      = some (pyStrip r.value) ∧
    extract_ms_token_from_chrome_edge (ChDB.ok crows) = some (pyStrip s) := by
  constructor
  · show (ffTryName hasBD rows "msToken" <|> ffTryName hasBD rows "ms_token")
        = some (pyStrip r.value)
    rcases hname with h | h
    · exact orElse_some_left
        (ffTryName_hit hasBD rows r "msToken" hr (Or.inl rfl) h hhost hval huniq)
    · refine orElse_some_right (Or.inl ?_) ?_
      · exact ffTryName_miss hasBD rows r "msToken" hr (Or.inl rfl)
          (by rw [h]; decide) hval huniq
      · exact ffTryName_hit hasBD rows r "ms_token" hr (Or.inr rfl) h hhost hval
          huniq
  · show (chTryName crows "msToken" <|> chTryName crows "ms_token")
        = some (pyStrip s)
    rcases hcname with h | h
    · exact orElse_some_left
        (chTryName_hit crows cr s "msToken" hcr (Or.inl rfl) h hchost hcv
          hcstrip hcv1 hcuniq)
    · refine orElse_some_right (Or.inl ?_) ?_
      · exact chTryName_miss crows cr s "msToken" hcr (Or.inl rfl)
          (by rw [h]; decide) hcv hcstrip hcv1 hcuniq
      · exact chTryName_hit crows cr s "ms_token" hcr (Or.inr rfl) h hchost hcv
          hcstrip hcv1 hcuniq

/-- Witness for C7 (amended) on concrete one-row databases. -/
theorem msToken_extraction_amended_witness :
    extract_ms_token_from_firefox
        (FfDB.ok true [⟨"msToken", "www.tiktok.com", "tiktok.com", " tokF "⟩])
      = some (pyStrip " tokF ") ∧
    extract_ms_token_from_chrome_edge
        (ChDB.ok [⟨"ms_token", ".tiktok.com", CookieValue.text " tokC "⟩])
      = some (pyStrip " tokC ") :=
  msToken_extraction_amended true
    [⟨"msToken", "www.tiktok.com", "tiktok.com", " tokF "⟩]
    ⟨"msToken", "www.tiktok.com", "tiktok.com", " tokF "⟩
    (by decide) (Or.inl rfl) (by decide) (by decide) (by decide)
    [⟨"ms_token", ".tiktok.com", CookieValue.text " tokC "⟩]
    ⟨"ms_token", ".tiktok.com", CookieValue.text " tokC "⟩
    " tokC "
    (by decide) (Or.inr rfl) (by decide) rfl (by decide) (by decide) (by decide)

end TikTokScraper
